import Mathlib

/-!
Verification of the IMU/GNSS error-state Kalman fusion node
(`src/imu_gnss_fusion_node.cpp`) against its specification.

The node's own logic (the GPS callback gating, initialization gating,
residual/Jacobian construction, publishing layout) is embedded directly from
`imu_gnss_fusion_node.cpp`.  The helper headers `imu_x_fusion/kf.hpp` and
`imu_x_fusion/gnss.hpp` are not part of the sources; the pieces of them that
the node calls (`KF::update_K`, `KF::update_P`, `State::operator+`,
`KF::init_rot_from_imudata`, `cg::lla2enu`, `cg::skew_matrix`) are modelled
from the specification, each marked `Modelled from the spec:` below.

Doubles are idealized as real numbers.
-/

namespace ImuGnssFusion

noncomputable section

open Matrix

abbrev Vec3 := Fin 3 → ℝ
abbrev Mat3 := Matrix (Fin 3) (Fin 3) ℝ
abbrev Vec15 := Fin 15 → ℝ
abbrev Mat15 := Matrix (Fin 15) (Fin 15) ℝ

/-- Dimension of the error state (`kStateDim` in the sources): position,
velocity, small-angle orientation error, accelerometer bias and gyroscope
bias, three components each. -/
def kStateDim : ℕ := 15

/-- One inertial sample (`ImuData`): timestamp plus body-frame specific force
and angular rate. -/
structure ImuData where
  timestamp : ℝ
  acc : Vec3
  gyr : Vec3

/-- Default inertial sample used as the (never observed) fallback value when
reading the back of a buffer that the code has already checked nonempty. -/
def dfltImu : ImuData := ⟨0, fun _ => 0, fun _ => 0⟩

/-- One GNSS fix (`GpsData`), built in `gps_callback` lines 80-85: timestamp,
geodetic position (latitude, longitude, altitude) and 3x3 covariance. -/
structure GpsData where
  timestamp : ℝ
  lla : Vec3
  cov : Mat3

/-- The filter state (`State` of kf.hpp as used by the node): timestamp,
position, velocity, body-to-global rotation, the two biases, and the 15x15
error covariance (`state_ptr_->cov`, read at line 154). -/
structure State where
  timestamp : ℝ
  p_GI : Vec3
  v_GI : Vec3
  r_GI : Mat3
  acc_bias : Vec3
  gyr_bias : Vec3
  cov : Mat15

/-- The KF object the node owns: state, the initialized flag
(`initialized_`, here `inited`), the inertial buffer and the last consumed
inertial sample. -/
structure KF where
  state : State
  inited : Bool
  imu_buf : List ImuData
  last_imu : ImuData

/-- Modelled from the spec: the configured minimum inertial-buffer size
(`kImuBufSize` of the absent kf.hpp) required before initialization is
attempted. -/
def kImuBufSize : ℕ := 100

/-- The fields of `sensor_msgs::NavSatFix` the callback reads: the quality
flag `status.status`, the stamp, the geodetic coordinates and the 3x3
position covariance. -/
structure NavSatFix where
  status : ℤ
  stamp : ℝ
  latitude : ℝ
  longitude : ℝ
  altitude : ℝ
  position_covariance : Mat3

/-- Geodetic vector carried by a fix message (lines 82-84). -/
def llaOf (msg : NavSatFix) : Vec3 := ![msg.latitude, msg.longitude, msg.altitude]

/-- The published odometry data: pose, velocity and the flattened 6x6 pose
covariance (lines 146-161). -/
structure Odom where
  p : Vec3
  r : Mat3
  v : Vec3
  cov6 : Fin 36 → ℝ

/-- Externally observable effects of one `gps_callback` invocation: whether a
non-fatal warning was emitted, the published odometry and path messages, and
the appended lines of the two csv logs (kept as the data being formatted). -/
structure Effects where
  warned : Bool := false
  inited_msg : Bool := false
  odom_pub : List Odom := []
  path_pub : List (List (Vec3 × Mat3)) := []
  gps_log : List (ℝ × Vec3) := []
  state_log : List (ℝ × Vec3 × Mat3) := []

/-- The fusion node: the KF, the reference anchor `init_lla_`, and the
accumulated `nav_path_`. -/
structure FusionNode where
  kf : KF
  init_lla : Vec3
  nav_path : List (Vec3 × Mat3)

/-- The lever arm `I_p_Gps_` from the IMU to the GNSS antenna, initialized to
the zero vector at line 66 and never written again. -/
def I_p_Gps_ : Vec3 := ![0, 0, 0]

/-- Modelled from the spec: `cg::skew_matrix` of the absent gnss.hpp, the
skew-symmetric cross-product matrix of a 3-vector. -/
def skew (v : Vec3) : Mat3 :=
  !![0, -v 2, v 1; v 2, 0, -v 0; -v 1, v 0, 0]

/-- Embedding of `Fin 3` into the first three error-state coordinates. -/
def fin3to15 (i : Fin 3) : Fin 15 := ⟨i.val, by have := i.isLt; omega⟩

/-- Components 0-2 (position error) of a 15-dim error vector. -/
def seg0 (d : Vec15) : Vec3 := fun i => d (fin3to15 i)

/-- Components 3-5 (velocity error) of a 15-dim error vector. -/
def seg3 (d : Vec15) : Vec3 := fun i => d ⟨3 + i.val, by have := i.isLt; omega⟩

/-- Components 6-8 (orientation error) of a 15-dim error vector. -/
def seg6 (d : Vec15) : Vec3 := fun i => d ⟨6 + i.val, by have := i.isLt; omega⟩

/-- Components 9-11 (accelerometer-bias error) of a 15-dim error vector. -/
def seg9 (d : Vec15) : Vec3 := fun i => d ⟨9 + i.val, by have := i.isLt; omega⟩

/-- Components 12-14 (gyroscope-bias error) of a 15-dim error vector. -/
def seg12 (d : Vec15) : Vec3 := fun i => d ⟨12 + i.val, by have := i.isLt; omega⟩

/-- Modelled from the spec: the rotation corresponding to a 3-element
orientation-error correction (the exponential map / Rodrigues formula), used
by `State::operator+` of the absent kf.hpp. -/
def deltaRot (v : Vec3) : Mat3 :=
  1 + (Real.sin (Real.sqrt (v 0 ^ 2 + v 1 ^ 2 + v 2 ^ 2))
        / Real.sqrt (v 0 ^ 2 + v 1 ^ 2 + v 2 ^ 2)) • skew v
    + ((1 - Real.cos (Real.sqrt (v 0 ^ 2 + v 1 ^ 2 + v 2 ^ 2)))
        / Real.sqrt (v 0 ^ 2 + v 1 ^ 2 + v 2 ^ 2) ^ 2) • (skew v * skew v)

/-- Modelled from the spec: `State::operator+` of the absent kf.hpp, the
filter's composition law (spec 4.4 step 7): position, velocity and bias
corrections are additive, the orientation correction is right-composed as a
rotation; timestamp and covariance pass through. -/
def stateAdd (s : State) (d : Vec15) : State :=
  { s with
    p_GI := s.p_GI + seg0 d
    v_GI := s.v_GI + seg3 d
    r_GI := s.r_GI * deltaRot (seg6 d)
    acc_bias := s.acc_bias + seg9 d
    gyr_bias := s.gyr_bias + seg12 d }

/-- Writes a 3x3 block into a 3x15 matrix at column offset `c`
(Eigen's `H.block<3,3>(0,c) = B`). -/
def hblock (M : Matrix (Fin 3) (Fin 15) ℝ) (c : ℕ) (B : Mat3) :
    Matrix (Fin 3) (Fin 15) ℝ :=
  fun i j => if h : c ≤ j.val ∧ j.val < c + 3 then B i ⟨j.val - c, by omega⟩ else M i j

/-- The measurement Jacobian assembled at lines 121-124: zero, then the
identity at columns 0-2 and `-r_GI * skew(lever)` at columns 6-8. -/
def measH (r : Mat3) (lever : Vec3) : Matrix (Fin 3) (Fin 15) ℝ :=
  hblock (hblock 0 0 (1 : Mat3)) 6 (-(r * skew lever))

/-- Modelled from the spec: `KF::update_K` of the absent kf.hpp, the Kalman
gain `K = P Ht (H P Ht + R)^-1` (spec 4.4 step 5). -/
def update_K (P : Mat15) (Hm : Matrix (Fin 3) (Fin 15) ℝ) (Rm : Mat3) :
    Matrix (Fin 15) (Fin 3) ℝ :=
  P * Hm.transpose * (Hm * P * Hm.transpose + Rm)⁻¹

/-- Modelled from the spec: `KF::update_P` of the absent kf.hpp, the
covariance update `P <- (I - K H) P` (spec 4.4 step 6). -/
def update_P (P : Mat15) (Hm : Matrix (Fin 3) (Fin 15) ℝ) (Rm : Mat3)
    (K : Matrix (Fin 15) (Fin 3) ℝ) : Mat15 :=
  (1 - K * Hm) * P

/-- WGS84 semi-major axis (meters). -/
def aE : ℝ := 6378137

/-- WGS84 flattening. -/
def fE : ℝ := 1 / 298257223563 * 1000000000

/-- WGS84 first eccentricity squared. -/
def e2 : ℝ := fE * (2 - fE)

/-- Degrees to radians (fix coordinates arrive in degrees). -/
def deg2rad (d : ℝ) : ℝ := d * Real.pi / 180

/-- Modelled from the spec: geodetic to Earth-centered Cartesian conversion on
the standard ellipsoid, the intermediate step of `cg::lla2enu` of the absent
gnss.hpp. -/
def ecefOfLLA (lla : Vec3) : Vec3 :=
  let phi := deg2rad (lla 0)
  let lam := deg2rad (lla 1)
  let h := lla 2
  let N := aE / Real.sqrt (1 - e2 * Real.sin phi ^ 2)
  ![(N + h) * Real.cos phi * Real.cos lam,
    (N + h) * Real.cos phi * Real.sin lam,
    (N * (1 - e2) + h) * Real.sin phi]

/-- Modelled from the spec: the ECEF-to-ENU rotation at the anchor. -/
def enuRot (anchor : Vec3) : Mat3 :=
  let phi := deg2rad (anchor 0)
  let lam := deg2rad (anchor 1)
  !![-Real.sin lam, Real.cos lam, 0;
     -Real.sin phi * Real.cos lam, -Real.sin phi * Real.sin lam, Real.cos phi;
     Real.cos phi * Real.cos lam, Real.cos phi * Real.sin lam, Real.sin phi]

/-- Modelled from the spec: `cg::lla2enu` of the absent gnss.hpp, converting a
geodetic point to East-North-Up coordinates relative to the anchor via the
ECEF intermediate (spec 4.1). -/
def lla2enu (anchor lla : Vec3) : Vec3 :=
  (enuRot anchor).mulVec (ecefOfLLA lla - ecefOfLLA anchor)

/-- Mean specific force over the buffered window. -/
def meanAcc (buf : List ImuData) : Vec3 :=
  fun i => ((buf.map fun d => d.acc i).sum) / buf.length

/-- Modelled from the spec: the leveling rotation derived from the sensed
gravity direction (spec 4.2); body "up" is aligned with global "up", heading
is left at its default.  Only its existence matters to the claims. -/
def levelRot (g : Vec3) : Mat3 :=
  let n := Real.sqrt (g 0 ^ 2 + g 1 ^ 2 + g 2 ^ 2)
  let z : Vec3 := fun i => g i / n
  let x0 : Vec3 := ![1 - z 0 * z 0, -(z 1 * z 0), -(z 2 * z 0)]
  let m := Real.sqrt (x0 0 ^ 2 + x0 1 ^ 2 + x0 2 ^ 2)
  let x : Vec3 := fun i => x0 i / m
  let y : Vec3 := ![z 1 * x 2 - z 2 * x 1, z 2 * x 0 - z 0 * x 2, z 0 * x 1 - z 1 * x 0]
  !![x 0, y 0, z 0; x 1, y 1, z 1; x 2, y 2, z 2]

/-- Modelled from the spec: `KF::init_rot_from_imudata` of the absent kf.hpp.
It averages the buffered specific forces and levels the platform; it fails
(returns `none`) when the leveling cannot be computed, i.e. when the mean
specific force vanishes.  On success the caller's KF becomes initialized. -/
def init_rot_from_imudata (buf : List ImuData) : Option Mat3 :=
  let g := meanAcc buf
  if Real.sqrt (g 0 ^ 2 + g 1 ^ 2 + g 2 ^ 2) = 0 then none
  else some (levelRot g)

/-- The fix position converted to the working ENU frame (lines 110-112). -/
def p_G_Gps_of (node : FusionNode) (msg : NavSatFix) : Vec3 :=
  lla2enu node.init_lla (llaOf msg)

/-- The measurement residual of line 118: converted fix position minus the
predicted sensor position `p_GI + r_GI * I_p_Gps_`. -/
def residual_of (node : FusionNode) (msg : NavSatFix) : Vec3 :=
  p_G_Gps_of node msg - (node.kf.state.p_GI + node.kf.state.r_GI.mulVec I_p_Gps_)

/-- The Kalman gain computed at line 130 for the current state and fix. -/
def K_of (node : FusionNode) (msg : NavSatFix) : Matrix (Fin 15) (Fin 3) ℝ :=
  update_K node.kf.state.cov (measH node.kf.state.r_GI I_p_Gps_) msg.position_covariance

/-- The updated covariance of line 131. -/
def Pnew_of (node : FusionNode) (msg : NavSatFix) : Mat15 :=
  update_P node.kf.state.cov (measH node.kf.state.r_GI I_p_Gps_) msg.position_covariance
    (K_of node msg)

/-- The error-state correction `K * residual` of line 132. -/
def correction_of (node : FusionNode) (msg : NavSatFix) : Vec15 :=
  (K_of node msg).mulVec (residual_of node msg)

/-- The state after line 132: covariance overwritten by `update_P`, then the
correction composed onto the nominal state by `State::operator+`. -/
def newState_of (node : FusionNode) (msg : NavSatFix) : State :=
  stateAdd { node.kf.state with cov := Pnew_of node msg } (correction_of node msg)

/-- Eigen `cov.block<3,3>(0,0)`-style submatrix of the error covariance at row
offset `r` and column offset `c` (`r`, `c` in `{0, 6}` at lines 154-157). -/
def covBlk (P : Mat15) (r c : Fin 13) : Mat3 :=
  fun i j => P ⟨r.val + i.val, by have := r.isLt; have := i.isLt; omega⟩
               ⟨c.val + j.val, by have := c.isLt; have := j.isLt; omega⟩

/-- The 6x6 pose covariance assembled at lines 154-159 from the four 3x3
blocks of the error covariance. -/
def poseCov6 (P : Mat15) : Matrix (Fin 6) (Fin 6) ℝ :=
  Matrix.reindex finSumFinEquiv finSumFinEquiv
    (Matrix.fromBlocks (covBlk P 0 0) (covBlk P 0 6) (covBlk P 6 0) (covBlk P 6 6))

/-- The row-major flattening of the 6x6 pose covariance into the 36-element
message array (line 160). -/
def covFlat (M : Matrix (Fin 6) (Fin 6) ℝ) : Fin 36 → ℝ :=
  fun k => M ⟨k.val / 6, by have := k.isLt; omega⟩
             ⟨k.val % 6, Nat.mod_lt _ (by norm_num)⟩

/-- The error-covariance row that flat pose-covariance entry `k` is drawn
from: rows 0-2 for the top block row, rows 6-8 for the bottom. -/
def rowOf (k : Fin 36) : Fin 15 :=
  ⟨if k.val / 6 < 3 then k.val / 6 else k.val / 6 + 3, by have := k.isLt; split <;> omega⟩

/-- The error-covariance column that flat pose-covariance entry `k` is drawn
from: columns 0-2 for the left block column, columns 6-8 for the right. -/
def colOf (k : Fin 36) : Fin 15 :=
  ⟨if k.val % 6 < 3 then k.val % 6 else k.val % 6 + 3,
   by have : k.val % 6 < 6 := Nat.mod_lt _ (by norm_num); split <;> omega⟩

/-- `FusionNode::publish_save_state` (lines 143-179): publish odometry with
the pose covariance block, append to and publish the path, and log the state
line.  Returns the node with the grown path plus the produced messages. -/
def publish_save_state (node : FusionNode) :
    FusionNode × Odom × List (Vec3 × Mat3) × (ℝ × Vec3 × Mat3) :=
  let st := node.kf.state
  let od : Odom := ⟨st.p_GI, st.r_GI, st.v_GI, covFlat (poseCov6 st.cov)⟩
  let path := node.nav_path ++ [(st.p_GI, st.r_GI)]
  ({ node with nav_path := path }, od, path, (st.timestamp, st.p_GI, st.r_GI))

/-- The initialization branch of `gps_callback` (lines 87-108): reject on an
under-filled buffer; record the last inertial sample; reject a desynchronized
fix; set the state timestamp; level from the buffer, and on success become
initialized and capture the anchor. -/
def gps_init (node : FusionNode) (msg : NavSatFix) : FusionNode × Effects :=
  if node.kf.imu_buf.length < kImuBufSize then (node, { warned := true })
  else
    let last := node.kf.imu_buf.getLastD dfltImu
    let node1 : FusionNode := { node with kf := { node.kf with last_imu := last } }
    if 0.5 < |msg.stamp - last.timestamp| then (node1, { warned := true })
    else
      let node2 : FusionNode :=
        { node1 with kf := { node1.kf with state := { node1.kf.state with timestamp := last.timestamp } } }
      match init_rot_from_imudata node.kf.imu_buf with
      | none => (node2, {})
      | some r =>
          ({ node2 with
              kf := { node2.kf with state := { node2.kf.state with r_GI := r }, inited := true }
              init_lla := llaOf msg },
           { inited_msg := true })

/-- The measurement-update branch of `gps_callback` (lines 110-140): gain,
covariance update, state correction, then publish and log. -/
def gps_update (node : FusionNode) (msg : NavSatFix) : FusionNode × Effects :=
  let st := newState_of node msg
  let node1 : FusionNode := { node with kf := { node.kf with state := st } }
  let pub := publish_save_state node1
  (pub.1,
   { odom_pub := [pub.2.1]
     path_pub := [pub.2.2.1]
     gps_log := [(msg.stamp, llaOf msg)]
     state_log := [pub.2.2.2] })

/-- `FusionNode::gps_callback` (lines 74-141): discard fixes whose quality
flag is not 2; before initialization run the initialization branch; otherwise
run the measurement update. -/
def gps_callback (node : FusionNode) (msg : NavSatFix) : FusionNode × Effects :=
  if msg.status ≠ 2 then (node, { warned := true })
  else if node.kf.inited = false then gps_init node msg
  else gps_update node msg

/-- Euclidean norm of a 3-vector. -/
def enorm (v : Vec3) : ℝ := Real.sqrt (v 0 ^ 2 + v 1 ^ 2 + v 2 ^ 2)

/-- The 3x15 matrix selecting the position-error coordinates; the value of the
measurement Jacobian when the lever arm vanishes. -/
def posSel : Matrix (Fin 3) (Fin 15) ℝ := fun i j => if (j : ℕ) = (i : ℕ) then 1 else 0

/-- A concrete error covariance: diagonal with position variances
`(1, 100, 1/10000)` and unit variance elsewhere (positive definite). -/
def P0 : Mat15 :=
  fun i j => if i = j then
      (if (i : ℕ) = 0 then 1 else if (i : ℕ) = 1 then 100 else if (i : ℕ) = 2 then 1 / 10000 else 1)
    else 0

/-- A concrete positive-definite fix covariance with correlated north/up
components. -/
def R0 : Mat3 := !![1, 0, 0; 0, 1, 9/10; 0, 9/10, 1]

/-- The innovation covariance `H P0 Ht + R0` arising from `P0` and `R0`. -/
def S0 : Mat3 := !![2, 0, 0; 0, 101, 9/10; 0, 9/10, 10001/10000]

/-- The exact inverse of `S0`. -/
def S0i : Mat3 :=
  !![1/2, 0, 0;
     0, 10001/1002001, -9000/1002001;
     0, -9000/1002001, 1010000/1002001]

/-- A concrete initialized filter state at the origin with identity attitude
and covariance `P0`. -/
def cexState : State :=
  { timestamp := 0, p_GI := ![0, 0, 0], v_GI := ![0, 0, 0], r_GI := 1
    acc_bias := ![0, 0, 0], gyr_bias := ![0, 0, 0], cov := P0 }

/-- A concrete initialized node anchored at zero geodetic coordinates. -/
def cexNode : FusionNode :=
  { kf := { state := cexState, inited := true, imu_buf := [], last_imu := dfltImu }
    init_lla := ![0, 0, 0], nav_path := [] }

/-- A high-confidence fix one meter above the anchor carrying covariance
`R0`. -/
def cexMsg : NavSatFix :=
  { status := 2, stamp := 1, latitude := 0, longitude := 0, altitude := 1
    position_covariance := R0 }

/-- An initialized filter state at the origin with identity attitude and
identity covariance. -/
def wState : State :=
  { timestamp := 0, p_GI := ![0, 0, 0], v_GI := ![0, 0, 0], r_GI := 1
    acc_bias := ![0, 0, 0], gyr_bias := ![0, 0, 0], cov := 1 }

/-- An initialized node anchored at zero geodetic coordinates. -/
def wNode : FusionNode :=
  { kf := { state := wState, inited := true, imu_buf := [], last_imu := dfltImu }
    init_lla := ![0, 0, 0], nav_path := [] }

/-- A high-confidence fix one meter above the anchor with identity
covariance. -/
def wMsg : NavSatFix :=
  { status := 2, stamp := 1, latitude := 0, longitude := 0, altitude := 1
    position_covariance := 1 }

/-- A fix whose quality flag is below the high-confidence threshold. -/
def rMsg : NavSatFix := { wMsg with status := 0 }

/-- An uninitialized node with an empty inertial buffer. -/
def uNode : FusionNode := { wNode with kf := { wNode.kf with inited := false } }

/-- A static inertial sample at timestamp zero. -/
def imu0 : ImuData := ⟨0, ![0, 0, 981/100], ![0, 0, 0]⟩

/-- An uninitialized node with a full inertial buffer of static samples at
timestamp zero. -/
def bNode : FusionNode :=
  { uNode with kf := { uNode.kf with imu_buf := List.replicate 100 imu0 } }

/-- A high-confidence fix stamped 10 seconds away from the buffered inertial
data. -/
def bMsg : NavSatFix := { wMsg with stamp := 10 }

/-! Section: Structural lemmas about the callback -/

lemma I_p_Gps_eq_zero : I_p_Gps_ = 0 := by
  funext i
  fin_cases i <;> rfl

lemma skew_lever : skew I_p_Gps_ = 0 := by
  rw [I_p_Gps_eq_zero]
  ext i j
  fin_cases i <;> fin_cases j <;>
    simp [skew, Matrix.vecHead, Matrix.vecTail]

lemma mulVec_lever (r : Mat3) : r.mulVec I_p_Gps_ = 0 := by
  rw [I_p_Gps_eq_zero, Matrix.mulVec_zero]

lemma measH_lever (r : Mat3) : measH r I_p_Gps_ = posSel := by
  ext i j
  fin_cases j <;> fin_cases i <;>
    simp [measH, hblock, skew_lever, posSel, Matrix.one_apply, Fin.ext_iff]

lemma posSel_mul {α : Type} (N : Matrix (Fin 15) α ℝ) (i : Fin 3) (b : α) :
    (posSel * N) i b = N (fin3to15 i) b := by
  simp only [Matrix.mul_apply, posSel]
  rw [Finset.sum_eq_single (fin3to15 i)]
  · simp [fin3to15]
  · intro k _ hk
    have hne : ¬ ((k : ℕ) = (i : ℕ)) := by
      intro h
      exact hk (by apply Fin.ext; simpa [fin3to15] using h)
    simp [hne]
  · simp

lemma mul_posSelT {α : Type} (N : Matrix α (Fin 15) ℝ) (a : α) (j : Fin 3) :
    (N * posSel.transpose) a j = N a (fin3to15 j) := by
  simp only [Matrix.mul_apply, Matrix.transpose_apply, posSel]
  rw [Finset.sum_eq_single (fin3to15 j)]
  · simp [fin3to15]
  · intro k _ hk
    have hne : ¬ ((k : ℕ) = (j : ℕ)) := by
      intro h
      exact hk (by apply Fin.ext; simpa [fin3to15] using h)
    simp [hne]
  · simp

lemma HPHT (P : Mat15) (i j : Fin 3) :
    (posSel * P * posSel.transpose) i j = P (fin3to15 i) (fin3to15 j) := by
  rw [mul_posSelT, posSel_mul]

lemma gps_callback_reject (node : FusionNode) (msg : NavSatFix) (h : msg.status ≠ 2) :
    gps_callback node msg = (node, { warned := true }) := by
  simp [gps_callback, h]

lemma gps_callback_update (node : FusionNode) (msg : NavSatFix)
    (h1 : node.kf.inited = true) (h2 : msg.status = 2) :
    gps_callback node msg = gps_update node msg := by
  simp [gps_callback, h1, h2]

lemma gps_callback_init (node : FusionNode) (msg : NavSatFix)
    (h1 : node.kf.inited = false) (h2 : msg.status = 2) :
    gps_callback node msg = gps_init node msg := by
  simp [gps_callback, h1, h2]

lemma gps_init_short (node : FusionNode) (msg : NavSatFix)
    (h : node.kf.imu_buf.length < kImuBufSize) :
    gps_init node msg = (node, { warned := true }) := by
  unfold gps_init
  rw [if_pos h]

lemma gps_init_desync (node : FusionNode) (msg : NavSatFix)
    (h1 : ¬ node.kf.imu_buf.length < kImuBufSize)
    (h2 : 0.5 < |msg.stamp - (node.kf.imu_buf.getLastD dfltImu).timestamp|) :
    gps_init node msg
      = ({ node with kf := { node.kf with last_imu := node.kf.imu_buf.getLastD dfltImu } },
         { warned := true }) := by
  unfold gps_init
  rw [if_neg h1]
  simp only [if_pos h2]

lemma gps_init_rotfail (node : FusionNode) (msg : NavSatFix)
    (h1 : ¬ node.kf.imu_buf.length < kImuBufSize)
    (h2 : ¬ 0.5 < |msg.stamp - (node.kf.imu_buf.getLastD dfltImu).timestamp|)
    (h3 : init_rot_from_imudata node.kf.imu_buf = none) :
    gps_init node msg
      = ({ node with
            kf := { node.kf with
                      last_imu := node.kf.imu_buf.getLastD dfltImu
                      state := { node.kf.state with
                                   timestamp := (node.kf.imu_buf.getLastD dfltImu).timestamp } } },
         {}) := by
  unfold gps_init
  rw [if_neg h1]
  simp only [if_neg h2, h3]

lemma gps_update_state (node : FusionNode) (msg : NavSatFix) :
    (gps_update node msg).1.kf.state = newState_of node msg := rfl

lemma gps_update_init_lla (node : FusionNode) (msg : NavSatFix) :
    (gps_update node msg).1.init_lla = node.init_lla := rfl

lemma gps_update_inited (node : FusionNode) (msg : NavSatFix) :
    (gps_update node msg).1.kf.inited = node.kf.inited := rfl

/-! Section: The orientation correction is a rotation -/

lemma skew_transpose (v : Vec3) : (skew v).transpose = -skew v := by
  ext i j
  fin_cases i <;> fin_cases j <;>
    simp [skew, Matrix.vecHead, Matrix.vecTail]

lemma skew_cube (v : Vec3) :
    skew v * skew v * skew v = -((v 0 ^ 2 + v 1 ^ 2 + v 2 ^ 2) • skew v) := by
  ext i j
  fin_cases i <;> fin_cases j <;>
    (simp [skew, Matrix.mul_apply, Fin.sum_univ_three, Matrix.vecHead, Matrix.vecTail]; ring)

lemma rodrigues_orthogonal (S : Mat3) (a b n : ℝ) (hT : S.transpose = -S)
    (h3 : S * S * S = -(n • S)) (hab : 2 * b - a ^ 2 - n * b ^ 2 = 0) :
    (1 + a • S + b • (S * S)).transpose * (1 + a • S + b • (S * S)) = 1 := by
  have e1 : S * (S * S) = -(n • S) := by rw [← mul_assoc, h3]
  have e2 : (S * S) * (S * S) = -(n • (S * S)) := by
    rw [← mul_assoc (S * S) S S, h3]
    simp [Matrix.smul_mul]
  have hTT : (1 + a • S + b • (S * S)).transpose = 1 + (-a) • S + b • (S * S) := by
    simp [Matrix.transpose_add, Matrix.transpose_smul, Matrix.transpose_mul, hT]
  rw [hTT]
  have expand :
      (1 + (-a) • S + b • (S * S)) * (1 + a • S + b • (S * S))
        = 1 + (2 * b - a ^ 2 - n * b ^ 2) • (S * S) := by
    simp only [mul_add, add_mul, one_mul, mul_one, Matrix.smul_mul, Matrix.mul_smul,
      smul_smul, e1, e2, h3, smul_neg]
    module
  rw [expand, hab]
  simp

lemma det_skew_form (v : Vec3) (a b : ℝ) :
    (1 + a • skew v + b • (skew v * skew v)).det
      = (1 - b * (v 0 ^ 2 + v 1 ^ 2 + v 2 ^ 2)) ^ 2
        + a ^ 2 * (v 0 ^ 2 + v 1 ^ 2 + v 2 ^ 2) := by
  simp [Matrix.det_fin_three, skew, Matrix.mul_apply, Fin.sum_univ_three,
    Matrix.vecHead, Matrix.vecTail]
  ring

lemma rodrigues_coeff (n : ℝ) (hn : 0 ≤ n) :
    2 * ((1 - Real.cos (Real.sqrt n)) / Real.sqrt n ^ 2)
      - (Real.sin (Real.sqrt n) / Real.sqrt n) ^ 2
      - n * ((1 - Real.cos (Real.sqrt n)) / Real.sqrt n ^ 2) ^ 2 = 0 := by
  rcases eq_or_lt_of_le hn with h | h
  · rw [← h]
    simp
  · have ht : 0 < Real.sqrt n := Real.sqrt_pos.mpr h
    have ht2 : Real.sqrt n ^ 2 = n := Real.sq_sqrt hn
    have hs := Real.sin_sq_add_cos_sq (Real.sqrt n)
    have htne : Real.sqrt n ≠ 0 := ne_of_gt ht
    field_simp
    nlinarith [hs, ht2]

lemma rodrigues_det_coeff (n : ℝ) (hn : 0 ≤ n) :
    (1 - ((1 - Real.cos (Real.sqrt n)) / Real.sqrt n ^ 2) * n) ^ 2
      + (Real.sin (Real.sqrt n) / Real.sqrt n) ^ 2 * n = 1 := by
  rcases eq_or_lt_of_le hn with h | h
  · rw [← h]
    simp
  · have ht : 0 < Real.sqrt n := Real.sqrt_pos.mpr h
    have ht2 : Real.sqrt n ^ 2 = n := Real.sq_sqrt hn
    have hs := Real.sin_sq_add_cos_sq (Real.sqrt n)
    have htne : Real.sqrt n ≠ 0 := ne_of_gt ht
    field_simp

lemma deltaRot_orthogonal (v : Vec3) : (deltaRot v).transpose * deltaRot v = 1 := by
  have hn : (0:ℝ) ≤ v 0 ^ 2 + v 1 ^ 2 + v 2 ^ 2 := by positivity
  exact rodrigues_orthogonal (skew v) _ _ (v 0 ^ 2 + v 1 ^ 2 + v 2 ^ 2)
    (skew_transpose v) (skew_cube v) (rodrigues_coeff _ hn)

lemma deltaRot_det (v : Vec3) : (deltaRot v).det = 1 := by
  have hn : (0:ℝ) ≤ v 0 ^ 2 + v 1 ^ 2 + v 2 ^ 2 := by positivity
  rw [deltaRot, det_skew_form]
  exact rodrigues_det_coeff _ hn

lemma rotation_mul_deltaRot (r : Mat3) (d : Vec3)
    (h1 : r.transpose * r = 1) (h2 : r.det = 1) :
    (r * deltaRot d).transpose * (r * deltaRot d) = 1 ∧ (r * deltaRot d).det = 1 := by
  constructor
  · rw [Matrix.transpose_mul, Matrix.mul_assoc, ← Matrix.mul_assoc r.transpose r,
      h1, Matrix.one_mul, deltaRot_orthogonal]
  · rw [Matrix.det_mul, h2, deltaRot_det, one_mul]

/-! Section: Norm and list helpers -/

lemma enorm_smul (c : ℝ) (v : Vec3) : enorm (c • v) = |c| * enorm v := by
  simp only [enorm, Pi.smul_apply, smul_eq_mul]
  rw [show (c * v 0) ^ 2 + (c * v 1) ^ 2 + (c * v 2) ^ 2
        = c ^ 2 * (v 0 ^ 2 + v 1 ^ 2 + v 2 ^ 2) by ring,
    Real.sqrt_mul (sq_nonneg c), Real.sqrt_sq_eq_abs]

lemma enorm_pos (v : Vec3) (h : v ≠ 0) : 0 < enorm v := by
  apply Real.sqrt_pos.mpr
  have hne : v 0 ≠ 0 ∨ v 1 ≠ 0 ∨ v 2 ≠ 0 := by
    by_contra hc
    push_neg at hc
    exact h (by funext i; fin_cases i <;> simp [hc.1, hc.2.1, hc.2.2])
  rcases hne with h0 | h1 | h2
  · nlinarith [pow_two_pos_of_ne_zero h0, sq_nonneg (v 1), sq_nonneg (v 2)]
  · nlinarith [pow_two_pos_of_ne_zero h1, sq_nonneg (v 0), sq_nonneg (v 2)]
  · nlinarith [pow_two_pos_of_ne_zero h2, sq_nonneg (v 0), sq_nonneg (v 1)]

lemma getLastD_replicate {α : Type} (n : ℕ) (x d : α) :
    (List.replicate (n + 1) x).getLastD d = x := by
  induction n generalizing d with
  | zero => rfl
  | succ k ih =>
      rw [List.replicate_succ, List.getLastD_cons]
      exact ih x

/-! Section: The update engine under a zero lever arm -/

lemma smul_one_inv (c : ℝ) (hc : c ≠ 0) : ((c • (1 : Mat3)))⁻¹ = c⁻¹ • 1 := by
  apply Matrix.inv_eq_right_inv
  rw [Matrix.smul_mul, Matrix.mul_smul, smul_smul, mul_inv_cancel₀ hc, one_smul, Matrix.one_mul]

lemma innovation_iso (P : Mat15) (s2 t : ℝ)
    (hP : ∀ i j : Fin 3, P (fin3to15 i) (fin3to15 j) = if i = j then s2 else 0) :
    posSel * P * posSel.transpose + t • (1 : Mat3) = (s2 + t) • 1 := by
  ext i j
  rw [Matrix.add_apply, HPHT, hP]
  by_cases h : i = j
  · simp [h, Matrix.one_apply]
  · simp [h, Matrix.one_apply]

lemma seg0_corr_iso (node : FusionNode) (msg : NavSatFix) (s2 t : ℝ)
    (hP : ∀ i j : Fin 3,
      node.kf.state.cov (fin3to15 i) (fin3to15 j) = if i = j then s2 else 0)
    (hR : msg.position_covariance = t • (1 : Mat3)) (hc : s2 + t ≠ 0) :
    seg0 (correction_of node msg) = (s2 * (s2 + t)⁻¹) • residual_of node msg := by
  funext i
  show correction_of node msg (fin3to15 i) = _
  rw [correction_of, K_of, update_K, measH_lever, hR, innovation_iso _ _ _ hP,
    smul_one_inv _ hc, Matrix.mul_smul, Matrix.mul_one, smul_mulVec_assoc]
  simp only [Pi.smul_apply, smul_eq_mul]
  have hrow : (node.kf.state.cov * posSel.transpose).mulVec (residual_of node msg) (fin3to15 i)
      = s2 * residual_of node msg i := by
    show (Finset.univ.sum fun j =>
        (node.kf.state.cov * posSel.transpose) (fin3to15 i) j * residual_of node msg j) = _
    have : ∀ j : Fin 3,
        (node.kf.state.cov * posSel.transpose) (fin3to15 i) j * residual_of node msg j
          = (if i = j then s2 else 0) * residual_of node msg j := by
      intro j
      rw [mul_posSelT, hP]
    rw [Finset.sum_congr rfl fun j _ => this j]
    rw [Finset.sum_eq_single i]
    · simp
    · intro b _ hb
      simp [Ne.symm hb]
    · simp
  rw [hrow]
  ring

lemma residual_after_iso (node : FusionNode) (msg : NavSatFix) (s2 t : ℝ)
    (h1 : node.kf.inited = true) (h2 : msg.status = 2)
    (hP : ∀ i j : Fin 3,
      node.kf.state.cov (fin3to15 i) (fin3to15 j) = if i = j then s2 else 0)
    (hR : msg.position_covariance = t • (1 : Mat3)) (hc : s2 + t ≠ 0) :
    residual_of (gps_callback node msg).1 msg
      = (t * (s2 + t)⁻¹) • residual_of node msg := by
  have hres : residual_of node msg = p_G_Gps_of node msg - node.kf.state.p_GI := by
    rw [residual_of, mulVec_lever, add_zero]
  rw [gps_callback_update _ _ h1 h2, residual_of, mulVec_lever, add_zero, p_G_Gps_of,
    gps_update_init_lla, gps_update_state]
  have hp : (newState_of node msg).p_GI
      = node.kf.state.p_GI + seg0 (correction_of node msg) := rfl
  rw [hp, seg0_corr_iso node msg s2 t hP hR hc]
  funext i
  have hri : residual_of node msg i
      = lla2enu node.init_lla (llaOf msg) i - node.kf.state.p_GI i := by
    rw [hres]
    rfl
  simp only [Pi.smul_apply, Pi.sub_apply, Pi.add_apply, smul_eq_mul, hri]
  field_simp
  ring

/-! Section: Evaluation of the geodetic transform on the concrete inputs -/

lemma lla2enu_above (h : ℝ) : lla2enu ![0, 0, 0] ![0, 0, h] = ![0, 0, h] := by
  funext i
  fin_cases i <;>
    (simp [lla2enu, ecefOfLLA, enuRot, deg2rad, Matrix.mulVec, Matrix.dotProduct,
      Fin.sum_univ_three, Matrix.vecHead, Matrix.vecTail]
     try ring)

lemma residual_origin (node : FusionNode) (msg : NavSatFix)
    (hanchor : node.init_lla = ![0, 0, 0]) (hlla : llaOf msg = ![0, 0, 1])
    (hp : node.kf.state.p_GI = ![0, 0, 0]) :
    residual_of node msg = ![0, 0, 1] := by
  rw [residual_of, mulVec_lever, add_zero, p_G_Gps_of, hanchor, hlla, hp, lla2enu_above 1]
  funext i
  fin_cases i <;> norm_num [Matrix.vecHead, Matrix.vecTail]

/-! Section: Concrete evaluation of the update on the counterexample inputs -/

lemma llaOf_cexMsg : llaOf cexMsg = ![0, 0, 1] := by
  funext i
  fin_cases i <;> rfl

lemma residual_cex : residual_of cexNode cexMsg = ![0, 0, 1] :=
  residual_origin cexNode cexMsg rfl llaOf_cexMsg rfl

lemma innovation_cex :
    posSel * P0 * posSel.transpose + R0 = S0 := by
  ext i j
  rw [Matrix.add_apply, HPHT]
  fin_cases i <;> fin_cases j <;>
    norm_num [P0, R0, S0, fin3to15, Fin.ext_iff, Matrix.vecHead, Matrix.vecTail]

lemma S0_inv : S0⁻¹ = S0i := by
  apply Matrix.inv_eq_right_inv
  ext i j
  fin_cases i <;> fin_cases j <;>
    (simp [S0, S0i, Matrix.mul_apply, Fin.sum_univ_three, Matrix.vecHead, Matrix.vecTail]
     try norm_num)

lemma corr_cex :
    seg0 (correction_of cexNode cexMsg) = ![0, -900000/1002001, 101/1002001] := by
  have hcov : cexNode.kf.state.cov = P0 := rfl
  have hR : cexMsg.position_covariance = R0 := rfl
  funext i
  show correction_of cexNode cexMsg (fin3to15 i) = _
  rw [correction_of, K_of, update_K, measH_lever, hcov, hR, innovation_cex, S0_inv,
    residual_cex]
  show (Finset.univ.sum fun j =>
      (P0 * posSel.transpose * S0i) (fin3to15 i) j * (![0, 0, 1] : Vec3) j) = _
  have hK : ∀ j : Fin 3, (P0 * posSel.transpose * S0i) (fin3to15 i) j
      = Finset.univ.sum fun k : Fin 3 => P0 (fin3to15 i) (fin3to15 k) * S0i k j := by
    intro j
    rw [Matrix.mul_apply]
    exact Finset.sum_congr rfl fun k _ => by rw [mul_posSelT]
  rw [Finset.sum_congr rfl fun j _ => by rw [hK]]
  fin_cases i <;>
    (simp [Fin.sum_univ_three, P0, S0i, fin3to15, Fin.ext_iff, Matrix.vecHead, Matrix.vecTail]
     try norm_num)

lemma residual_after_cex :
    residual_of (gps_callback cexNode cexMsg).1 cexMsg
      = ![0, 900000/1002001, 1001900/1002001] := by
  rw [gps_callback_update _ _ rfl rfl, residual_of, mulVec_lever, add_zero, p_G_Gps_of,
    gps_update_init_lla, gps_update_state]
  have hp : (newState_of cexNode cexMsg).p_GI
      = cexNode.kf.state.p_GI + seg0 (correction_of cexNode cexMsg) := rfl
  rw [hp, corr_cex]
  have hanchor : cexNode.init_lla = ![0, 0, 0] := rfl
  have hstp : cexNode.kf.state.p_GI = ![0, 0, 0] := rfl
  rw [hanchor, hstp, llaOf_cexMsg, lla2enu_above 1]
  funext i
  fin_cases i <;> norm_num

lemma R0_posDef : R0.PosDef := by
  constructor
  · show R0.conjTranspose = R0
    ext i j
    fin_cases i <;> fin_cases j <;>
      simp [R0, Matrix.conjTranspose_apply, Matrix.vecHead, Matrix.vecTail]
  · intro x hx
    have hsx : star x = x := star_trivial x
    have hq : star x ⬝ᵥ R0.mulVec x
        = x 0 ^ 2 + (19/100) * x 1 ^ 2 + (x 2 + (9/10) * x 1) ^ 2 := by
      rw [hsx]
      simp [Matrix.dotProduct, Matrix.mulVec, R0, Fin.sum_univ_three,
        Matrix.vecHead, Matrix.vecTail]
      ring
    rw [hq]
    have hne : x 0 ≠ 0 ∨ x 1 ≠ 0 ∨ x 2 ≠ 0 := by
      by_contra hc
      push_neg at hc
      exact hx (by funext i; fin_cases i <;> simp [hc.1, hc.2.1, hc.2.2])
    rcases hne with h | h | h
    · nlinarith [pow_two_pos_of_ne_zero h, sq_nonneg (x 2 + (9/10) * x 1), sq_nonneg (x 1)]
    · nlinarith [pow_two_pos_of_ne_zero h, sq_nonneg (x 2 + (9/10) * x 1), sq_nonneg (x 0)]
    · nlinarith [pow_two_pos_of_ne_zero h, sq_nonneg (x 2 + (9/10) * x 1),
        sq_nonneg (x 1), sq_nonneg (x 0), sq_nonneg (x 2 + (9/5) * x 1)]

lemma R0_det_ne : R0.det ≠ 0 := by
  rw [Matrix.det_fin_three]
  norm_num [R0, Matrix.vecHead, Matrix.vecTail]

/-! Section: Claim theorems -/

/-- C1 counterexample: at a fully concrete initialized state (origin position,
identity attitude, positive-definite error covariance `P0`) and an accepted
fix one meter above the anchor with positive-definite (hence non-degenerate)
measurement covariance `R0`, the residual recomputed after the correction is
strictly LARGER in Euclidean norm than the residual before the correction, so
the claimed strict decrease fails. -/
theorem residual_not_reduced_cex :
    cexNode.kf.inited = true ∧ cexMsg.status = 2
    ∧ cexMsg.position_covariance.PosDef
    ∧ cexMsg.position_covariance.det ≠ 0
    ∧ enorm (residual_of cexNode cexMsg)
        < enorm (residual_of (gps_callback cexNode cexMsg).1 cexMsg)
    ∧ ¬ enorm (residual_of (gps_callback cexNode cexMsg).1 cexMsg)
        < enorm (residual_of cexNode cexMsg) := by
  have hb : enorm (residual_of cexNode cexMsg) = 1 := by
    rw [residual_cex, enorm]
    norm_num [Matrix.vecHead, Matrix.vecTail]
  have ha : 1 < enorm (residual_of (gps_callback cexNode cexMsg).1 cexMsg) := by
    rw [residual_after_cex, enorm]
    rw [Real.lt_sqrt (by norm_num)]
    norm_num [Matrix.vecHead, Matrix.vecTail]
  exact ⟨rfl, rfl, R0_posDef, R0_det_ne,
    by rw [hb]; exact ha, by rw [hb]; exact lt_asymm ha⟩

/-- C1 (amended): when the position block of the error covariance and the fix
covariance are both isotropic (`s2 * I` with `s2 > 0` and `t * I` with
`t > 0`) and the pre-correction residual is non-zero, the residual recomputed
after the correction equals the pre-correction residual scaled by
`t / (s2 + t)` and is therefore strictly smaller in Euclidean norm.  (For
anisotropic covariances the recomputed residual can be strictly larger, and
for a zero residual or zero gain it is unchanged.) -/
theorem update_contracts_residual_isotropic :
    ∀ (node : FusionNode) (msg : NavSatFix) (s2 t : ℝ),
      node.kf.inited = true → msg.status = 2 →
      (∀ i j : Fin 3,
        node.kf.state.cov (fin3to15 i) (fin3to15 j) = if i = j then s2 else 0) →
      msg.position_covariance = t • (1 : Mat3) →
      0 < s2 → 0 < t →
      residual_of node msg ≠ 0 →
      residual_of (gps_callback node msg).1 msg
          = (t * (s2 + t)⁻¹) • residual_of node msg
      ∧ enorm (residual_of (gps_callback node msg).1 msg)
          < enorm (residual_of node msg) := by
  intro node msg s2 t h1 h2 hP hR hs ht hres
  have hc : s2 + t ≠ 0 := (by positivity : (0:ℝ) < s2 + t).ne'
  have heq := residual_after_iso node msg s2 t h1 h2 hP hR hc
  refine ⟨heq, ?_⟩
  rw [heq, enorm_smul]
  have hfac : |t * (s2 + t)⁻¹| = t * (s2 + t)⁻¹ := abs_of_pos (by positivity)
  rw [hfac]
  apply mul_lt_of_lt_one_left (enorm_pos _ hres)
  rw [show t * (s2 + t)⁻¹ = t / (s2 + t) by ring, div_lt_one (by positivity)]
  linarith

/-- Witness for the amended C1 at a concrete initialized node with identity
error covariance, an identity-covariance fix one meter above the anchor. -/
theorem update_contracts_residual_isotropic_witness :
    residual_of (gps_callback wNode wMsg).1 wMsg
        = ((1:ℝ) * ((1:ℝ) + 1)⁻¹) • residual_of wNode wMsg
    ∧ enorm (residual_of (gps_callback wNode wMsg).1 wMsg)
        < enorm (residual_of wNode wMsg) := by
  have hres : residual_of wNode wMsg = ![0, 0, 1] :=
    residual_origin wNode wMsg rfl (by funext i; fin_cases i <;> rfl) rfl
  apply update_contracts_residual_isotropic wNode wMsg 1 1 rfl rfl
  · intro i j
    by_cases h : i = j
    · subst h
      simp [wNode, wState, Matrix.one_apply]
    · have hne : fin3to15 i ≠ fin3to15 j := by
        intro hh
        exact h (Fin.ext (by simpa [fin3to15] using congrArg Fin.val hh))
      simp [wNode, wState, Matrix.one_apply, hne, h]
  · show (1 : Mat3) = (1:ℝ) • 1
    simp
  · norm_num
  · norm_num
  · rw [hres]
    intro h
    have h2 := congrFun h 2
    norm_num [Matrix.vecHead, Matrix.vecTail] at h2

/-- C2: after every measurement update, the error-state correction is applied
through the filter's composition law: position, velocity and the two biases
are corrected additively, while the orientation is corrected by
right-composing the nominal rotation with the rotation of the 3-element
orientation-error correction; consequently, whenever the nominal orientation
was a valid rotation (orthonormal with determinant one) it remains one. -/
theorem update_orientation_composes_rotation :
    ∀ (node : FusionNode) (msg : NavSatFix),
      node.kf.inited = true → msg.status = 2 →
      (gps_callback node msg).1.kf.state.r_GI
          = node.kf.state.r_GI * deltaRot (seg6 (correction_of node msg))
      ∧ (gps_callback node msg).1.kf.state.p_GI
          = node.kf.state.p_GI + seg0 (correction_of node msg)
      ∧ (gps_callback node msg).1.kf.state.v_GI
          = node.kf.state.v_GI + seg3 (correction_of node msg)
      ∧ (gps_callback node msg).1.kf.state.acc_bias
          = node.kf.state.acc_bias + seg9 (correction_of node msg)
      ∧ (gps_callback node msg).1.kf.state.gyr_bias
          = node.kf.state.gyr_bias + seg12 (correction_of node msg)
      ∧ (node.kf.state.r_GI.transpose * node.kf.state.r_GI = 1 →
          node.kf.state.r_GI.det = 1 →
          (gps_callback node msg).1.kf.state.r_GI.transpose
              * (gps_callback node msg).1.kf.state.r_GI = 1
          ∧ (gps_callback node msg).1.kf.state.r_GI.det = 1) := by
  intro node msg h1 h2
  rw [gps_callback_update _ _ h1 h2, gps_update_state]
  refine ⟨rfl, rfl, rfl, rfl, rfl, ?_⟩
  intro ho hd
  exact rotation_mul_deltaRot _ _ ho hd

/-- Witness for C2 at a concrete initialized node with identity attitude. -/
theorem update_orientation_composes_rotation_witness :
    (gps_callback wNode wMsg).1.kf.state.r_GI.transpose
        * (gps_callback wNode wMsg).1.kf.state.r_GI = 1
    ∧ (gps_callback wNode wMsg).1.kf.state.r_GI.det = 1 := by
  have h := update_orientation_composes_rotation wNode wMsg rfl rfl
  exact h.2.2.2.2.2 (by simp [wNode, wState]) (by simp [wNode, wState])

/-- C3: for every fix processed after initialization, the measurement residual
fed into the correction is the fix position converted to the local frame via
the reference anchor minus the predicted sensor position
`p_GI + r_GI * lever`. -/
theorem residual_formula :
    ∀ (node : FusionNode) (msg : NavSatFix),
      node.kf.inited = true → msg.status = 2 →
      (gps_callback node msg).1.kf.state
        = stateAdd { node.kf.state with cov := Pnew_of node msg }
            ((K_of node msg).mulVec
              (lla2enu node.init_lla (llaOf msg)
                - (node.kf.state.p_GI + node.kf.state.r_GI.mulVec I_p_Gps_))) := by
  intro node msg h1 h2
  rw [gps_callback_update _ _ h1 h2, gps_update_state]
  rfl

/-- Witness for C3 at a concrete initialized node. -/
theorem residual_formula_witness :
    (gps_callback wNode wMsg).1.kf.state
      = stateAdd { wNode.kf.state with cov := Pnew_of wNode wMsg }
          ((K_of wNode wMsg).mulVec
            (lla2enu wNode.init_lla (llaOf wMsg)
              - (wNode.kf.state.p_GI + wNode.kf.state.r_GI.mulVec I_p_Gps_))) :=
  residual_formula wNode wMsg rfl rfl

/-- C4: the measurement Jacobian has the identity on the position-error
columns 0-2, `-r * skew(lever)` on the orientation-error columns 6-8, and
zero everywhere else. -/
theorem measurement_jacobian_blocks :
    ∀ (r : Mat3) (lever : Vec3) (i : Fin 3) (j : Fin 15),
      measH r lever i j =
        if j.val < 3 then (if j.val = i.val then 1 else 0)
        else if h69 : 6 ≤ j.val ∧ j.val < 9 then
          (-(r * skew lever)) i ⟨j.val - 6, by omega⟩
        else 0 := by
  intro r lever i j
  simp only [measH, hblock]
  by_cases h6 : 6 ≤ j.val ∧ j.val < 6 + 3
  · have hn3 : ¬ j.val < 3 := by omega
    have h69 : 6 ≤ j.val ∧ j.val < 9 := by omega
    rw [dif_pos h6, if_neg hn3, dif_pos h69]
  · by_cases h3 : 0 ≤ j.val ∧ j.val < 0 + 3
    · have hj3 : j.val < 3 := by omega
      rw [dif_neg h6, dif_pos h3, if_pos hj3]
      by_cases hv : j.val = i.val
      · have he : i = (⟨j.val - 0, by omega⟩ : Fin 3) := by
          apply Fin.ext
          show (i : ℕ) = j.val - 0
          omega
        rw [Matrix.one_apply, if_pos he, if_pos hv]
      · have he : ¬ i = (⟨j.val - 0, by omega⟩ : Fin 3) := by
          intro hh
          have := congrArg Fin.val hh
          simp only [Nat.sub_zero] at this
          omega
        rw [Matrix.one_apply, if_neg he, if_neg hv]
    · have hn3 : ¬ j.val < 3 := by omega
      have hn69 : ¬ (6 ≤ j.val ∧ j.val < 9) := by omega
      rw [dif_neg h6, dif_neg h3, if_neg hn3, dif_neg hn69]
      rfl

/-- C5: a fix whose quality flag is below the high-confidence threshold is
discarded with a non-fatal warning; the node (nominal state and error
covariance included) is returned unchanged and nothing is published or
logged. -/
theorem rejected_fix_state_untouched :
    ∀ (node : FusionNode) (msg : NavSatFix), msg.status < 2 →
      gps_callback node msg = (node, { warned := true }) := by
  intro node msg h
  exact gps_callback_reject node msg (ne_of_lt h)

/-- Witness for C5 at a concrete below-threshold fix. -/
theorem rejected_fix_state_untouched_witness :
    gps_callback wNode rMsg = (wNode, { warned := true }) :=
  rejected_fix_state_untouched wNode rMsg (by decide)

/-- C6: initialization attempted with an under-filled inertial buffer leaves
the node completely unchanged; when orientation-leveling cannot be computed
the filter stays uninitialized and the anchor is not set; and once
initialized the filter never re-enters initialization (the anchor is never
repopulated), so the state is populated exactly once. -/
theorem initialization_gating :
    ∀ (node : FusionNode) (msg : NavSatFix),
      (node.kf.inited = false → node.kf.imu_buf.length < kImuBufSize →
        (gps_callback node msg).1 = node)
      ∧ (node.kf.inited = false → init_rot_from_imudata node.kf.imu_buf = none →
        (gps_callback node msg).1.kf.inited = false
        ∧ (gps_callback node msg).1.init_lla = node.init_lla)
      ∧ (node.kf.inited = true →
        (gps_callback node msg).1.kf.inited = true
        ∧ (gps_callback node msg).1.init_lla = node.init_lla) := by
  intro node msg
  refine ⟨?_, ?_, ?_⟩
  · intro hi hlen
    by_cases hs : msg.status = 2
    · rw [gps_callback_init _ _ hi hs, gps_init_short _ _ hlen]
    · rw [gps_callback_reject _ _ hs]
  · intro hi hrot
    by_cases hs : msg.status = 2
    · rw [gps_callback_init _ _ hi hs]
      by_cases hlen : node.kf.imu_buf.length < kImuBufSize
      · rw [gps_init_short _ _ hlen]
        exact ⟨hi, rfl⟩
      · by_cases hd : 0.5 < |msg.stamp - (node.kf.imu_buf.getLastD dfltImu).timestamp|
        · rw [gps_init_desync _ _ hlen hd]
          exact ⟨hi, rfl⟩
        · rw [gps_init_rotfail _ _ hlen hd hrot]
          exact ⟨hi, rfl⟩
    · rw [gps_callback_reject _ _ hs]
      exact ⟨hi, rfl⟩
  · intro hi
    by_cases hs : msg.status = 2
    · rw [gps_callback_update _ _ hi hs]
      exact ⟨by rw [gps_update_inited]; exact hi, gps_update_init_lla node msg⟩
    · rw [gps_callback_reject _ _ hs]
      exact ⟨hi, rfl⟩

/-- Witness for C6: an uninitialized node with an empty buffer is left
unchanged, and an initialized node stays initialized. -/
theorem initialization_gating_witness :
    (gps_callback uNode wMsg).1 = uNode
    ∧ (gps_callback wNode wMsg).1.kf.inited = true := by
  refine ⟨(initialization_gating uNode wMsg).1 rfl (by decide), ?_⟩
  exact ((initialization_gating wNode wMsg).2.2 rfl).1

/-- C7: during initialization, a fix whose timestamp differs from the latest
buffered inertial sample's by more than 0.5 seconds is discarded with a
non-fatal warning: the filter stays uninitialized, its state is untouched
(only the last-consumed-sample pointer was recorded), and the anchor is not
set from the fix. -/
theorem init_desync_rejected :
    ∀ (node : FusionNode) (msg : NavSatFix), msg.status = 2 →
      node.kf.inited = false →
      ¬ node.kf.imu_buf.length < kImuBufSize →
      0.5 < |msg.stamp - (node.kf.imu_buf.getLastD dfltImu).timestamp| →
      gps_callback node msg
        = ({ node with kf := { node.kf with last_imu := node.kf.imu_buf.getLastD dfltImu } },
           { warned := true }) := by
  intro node msg hs hi hlen hd
  rw [gps_callback_init _ _ hi hs, gps_init_desync _ _ hlen hd]

/-- Witness for C7 at a concrete uninitialized node with a full static buffer
and a fix stamped ten seconds away. -/
theorem init_desync_rejected_witness :
    gps_callback bNode bMsg
      = ({ bNode with kf := { bNode.kf with last_imu := bNode.kf.imu_buf.getLastD dfltImu } },
         { warned := true }) := by
  have hlast : (bNode.kf.imu_buf.getLastD dfltImu) = imu0 := by
    have h := getLastD_replicate 99 imu0 dfltImu
    norm_num at h
    simpa [bNode, uNode, wNode] using h
  apply init_desync_rejected bNode bMsg rfl rfl
  · simp [bNode, uNode, wNode, kImuBufSize]
  · rw [hlast]
    norm_num [bMsg, wMsg, imu0]

/-- C9: the flattened 6x6 pose covariance published after an update is, in
row-major order, exactly the position-position, position-orientation,
orientation-position and orientation-orientation 3x3 blocks of the error
covariance at row/column offsets 0 and 6. -/
theorem pose_covariance_layout :
    ∀ (P : Mat15) (k : Fin 36), covFlat (poseCov6 P) k = P (rowOf k) (colOf k) := by
  intro P k
  fin_cases k <;> rfl

/-- C10: the lever arm is the zero vector, so the predicted sensor position
used in every residual equals the state position, and the orientation-error
block of the measurement Jacobian vanishes (the whole Jacobian degenerates to
the position selector). -/
theorem lever_arm_zero :
    ∀ (node : FusionNode) (msg : NavSatFix),
      I_p_Gps_ = 0
      ∧ residual_of node msg = p_G_Gps_of node msg - node.kf.state.p_GI
      ∧ measH node.kf.state.r_GI I_p_Gps_ = posSel
      ∧ (∀ (i j : Fin 3),
          measH node.kf.state.r_GI I_p_Gps_ i ⟨6 + j.val, by have := j.isLt; omega⟩ = 0) := by
  intro node msg
  refine ⟨I_p_Gps_eq_zero, ?_, measH_lever _, ?_⟩
  · rw [residual_of, mulVec_lever, add_zero]
  · intro i j
    rw [measH_lever]
    have : ¬ ((6 + j.val : ℕ) = (i : ℕ)) := by have := i.isLt; omega
    simp [posSel, this]

end

end ImuGnssFusion
